import Mathlib

/-!
Shallow embedding of the MOZGIII/musicbot2 per-guild session coordination
layer (src/player.rs, src/per_guild_data.rs, src/action.rs, src/helper.rs,
src/main.rs).

External collaborators (the gateway shard, the lavalink node client, the
HTTP client and the in-memory cache) are modelled by an `Env` of response
functions, and every observable outbound operation (voice join/leave,
player lookup, HTTP track load, node directives, text replies) is recorded
in an ordered trace of `Effect`s.  The per-guild store (a `DashMap` in the
source) is modelled as an association list where the most recent entry for
a key shadows older ones; all observations go through key lookup.
-/

namespace MusicBot

/-- Opaque guild identity (twilight_model::id::GuildId). -/
abbrev GuildId := Nat

/-- Opaque channel identity (twilight_model::id::ChannelId). -/
abbrev ChannelId := Nat

/-- Opaque user identity (twilight_model::id::UserId). -/
abbrev UserId := Nat

/-- twilight_lavalink::http::Track: the opaque playable token plus the
display metadata used by `format_track` (title, author). -/
structure Track where
  track : String
  title : Option String
  author : Option String
deriving Repr, DecidableEq, Inhabited

/-- twilight_lavalink::http::LoadedTracks (the fields the program reads). -/
structure LoadedTracks where
  tracks : List Track
deriving Repr, DecidableEq, Inhabited

/-- src/player.rs: `TrackManager { track_queue: Vec<Track> }`. -/
structure TrackManager where
  track_queue : List Track := []
deriving Repr, DecidableEq, Inhabited

/-- src/player.rs `TrackManager::enqueue`: `self.track_queue.extend(tracks)` —
append at the tail, preserving order. -/
def TrackManager.enqueue (tm : TrackManager) (tracks : List Track) : TrackManager :=
  { tm with track_queue := tm.track_queue ++ tracks }

/-- src/player.rs `TrackManager::next_track`: `self.track_queue.pop()` —
`Vec::pop` removes and returns the LAST element (the tail), or `None` when
the vector is empty. -/
def TrackManager.next_track (tm : TrackManager) : Option Track × TrackManager :=
  match tm.track_queue.getLast? with
  | none => (none, tm)
  | some t => (some t, { tm with track_queue := tm.track_queue.dropLast })

/-- src/per_guild_data.rs: `PerGuildData`. -/
structure PerGuildData where
  associated_text_channel : Option ChannelId := none
  track_manager : TrackManager := {}
deriving Repr, DecidableEq, Inhabited

/-- src/per_guild_data.rs: `Store { map: DashMap<GuildId, PerGuildData> }`,
modelled as an association list whose most recent entry for a key shadows
older entries (all observations go through `getEntry`). -/
structure Store where
  map : List (GuildId × PerGuildData) := []
deriving Repr, DecidableEq, Inhabited

/-- Map lookup on the store (DashMap::get / entry inspection). -/
def Store.getEntry (s : Store) (g : GuildId) : Option PerGuildData :=
  s.map.lookup g

/-- Map insert-or-overwrite on the store (the write half of the DashMap
entry API): the new binding shadows any previous one. -/
def Store.setEntry (s : Store) (g : GuildId) (d : PerGuildData) : Store :=
  ⟨(g, d) :: s.map⟩

/-- src/per_guild_data.rs `Store::associate_text_channel`:
`entry(g).and_modify(set channel).or_insert_with(default with channel)`. -/
def Store.associate_text_channel (s : Store) (g : GuildId) (c : ChannelId) : Store :=
  match s.getEntry g with
  | some d => s.setEntry g { d with associated_text_channel := some c }
  | none => s.setEntry g { associated_text_channel := some c }

/-- src/per_guild_data.rs `Store::get_associated_text_channel`. -/
def Store.get_associated_text_channel (s : Store) (g : GuildId) : Option ChannelId :=
  match s.getEntry g with
  | some d => d.associated_text_channel
  | none => none

/-- src/per_guild_data.rs `Store::with_track_manger`:
`entry(g).or_default()` then apply `f` to the entry's track manager with
exclusive access; returns `f`'s result. -/
def Store.with_track_manger {V : Type} (s : Store) (g : GuildId)
    (f : TrackManager → V × TrackManager) : V × Store :=
  let data := (s.getEntry g).getD {}
  let (v, tm) := f data.track_manager
  (v, s.setEntry g { data with track_manager := tm })

/-- Observation: the queue of a guild (empty when the guild has no entry). -/
def Store.guild_queue (s : Store) (g : GuildId) : List Track :=
  match s.getEntry g with
  | some d => d.track_manager.track_queue
  | none => []

/-- Observable outbound operations, in issue order: gateway voice
commands (src/voice_channel.rs), node-player lookup and directives
(state.lavalink / player.send), the HTTP track-load request, and text
replies (ResponseContext::with_content / respond_to). -/
inductive Effect where
  | joinVoice (guild : GuildId) (channel : ChannelId)
  | leaveVoice (guild : GuildId)
  | playerLookup (guild : GuildId)
  | httpLoadTracks (identifier : String)
  | sendPlay (guild : GuildId) (token : String)
  | sendDestroy (guild : GuildId)
  | sendPause (guild : GuildId) (paused : Bool)
  | sendVolume (guild : GuildId) (value : Int)
  | sendSeek (guild : GuildId) (position : Int)
  | reply (channel : ChannelId) (content : String)
deriving Repr, DecidableEq

/-- A failure while building, sending or decoding the track-load HTTP
request (`load_track(..)?`, `try_into()?`, `execute(..).await?`,
`json::<LoadedTracks>().await?`). -/
inductive LoadError where
  | requestBuild
  | transport
  | parse
deriving Repr, DecidableEq

/-- The distinct error kinds an action can propagate (each a distinct
Rust error type carried by `anyhow::Error`; `main.rs` discriminates with
`err.is::<NoTracksFound>()` and `err.is::<VolumeValueOutOfBounds>()`). -/
inductive ActionError where
  | gatewayCommandFailed
  | playerUnavailable
  | loadFailed (e : LoadError)
  | noTracksFound
  | sendFailed
  | volumeValueOutOfBounds (value : Int)
deriving Repr, DecidableEq

/-- The node-side player handle: the program reads its `paused()` flag. -/
structure Player where
  paused : Bool
deriving Repr, DecidableEq, Inhabited

/-- twilight voice-state cache record: the field the program reads. -/
structure VoiceState where
  channel_id : Option ChannelId
deriving Repr, DecidableEq, Inhabited

/-- Responses of the external collaborators, fixed per run: whether the
gateway accepts the voice join/leave command, whether a player handle for
the guild is available and its paused flag, the outcome of the track-load
HTTP exchange, whether `player.send` succeeds, the cached voice state, and
the configured command prefix string. -/
structure Env where
  commandPrefixStr : String
  joinOk : GuildId → ChannelId → Bool
  leaveOk : GuildId → Bool
  player : GuildId → Option Player
  loadTracks : String → Except LoadError LoadedTracks
  sendOk : Bool
  voice_state : UserId → GuildId → Option VoiceState

/-- src/action.rs `play`: join voice channel, select player, load tracks,
take the first result, issue the play directive. -/
def play (env : Env) (store : Store) (guild_id : GuildId) (channel_id : ChannelId)
    (identifier : String) : Except ActionError Track × Store × List Effect :=
  -- Join channel.
  let tr := [Effect.joinVoice guild_id channel_id]
  if env.joinOk guild_id channel_id then
    -- Select player.
    let tr := tr ++ [Effect.playerLookup guild_id]
    match env.player guild_id with
    | none => (.error .playerUnavailable, store, tr)
    | some _player =>
      -- Load tracks.
      let tr := tr ++ [Effect.httpLoadTracks identifier]
      match env.loadTracks identifier with
      | .error e => (.error (.loadFailed e), store, tr)
      | .ok loaded =>
        -- Determine the track: `loaded.tracks.into_iter().next()`.
        match loaded.tracks with
        | [] => (.error .noTracksFound, store, tr)
        | track :: _ =>
          -- Issue play command.
          let tr := tr ++ [Effect.sendPlay guild_id track.track]
          if env.sendOk then (.ok track, store, tr) else (.error .sendFailed, store, tr)
  else (.error .gatewayCommandFailed, store, tr)

/-- src/action.rs `enqueue`: join voice channel, select player, load
tracks, take the first result, append it to the guild's queue (no play
directive). -/
def enqueue (env : Env) (store : Store) (guild_id : GuildId) (channel_id : ChannelId)
    (identifier : String) : Except ActionError Track × Store × List Effect :=
  -- Join channel.
  let tr := [Effect.joinVoice guild_id channel_id]
  if env.joinOk guild_id channel_id then
    -- Select player.
    let tr := tr ++ [Effect.playerLookup guild_id]
    match env.player guild_id with
    | none => (.error .playerUnavailable, store, tr)
    | some _player =>
      -- Load tracks.
      let tr := tr ++ [Effect.httpLoadTracks identifier]
      match env.loadTracks identifier with
      | .error e => (.error (.loadFailed e), store, tr)
      | .ok loaded =>
        -- Determine the track.
        match loaded.tracks with
        | [] => (.error .noTracksFound, store, tr)
        | track :: _ =>
          -- Enqueue track: `track_manager.enqueue(std::iter::once(track.clone()))`.
          let (_, store) := store.with_track_manger guild_id
            (fun track_manager => ((), track_manager.enqueue [track]))
          (.ok track, store, tr)
  else (.error .gatewayCommandFailed, store, tr)

/-- src/action.rs `play_from_queue`: dequeue via `next_track`; on `None`
return `Ok(None)` at once; otherwise select the player and issue the play
directive. -/
def play_from_queue (env : Env) (store : Store) (guild_id : GuildId) :
    Except ActionError (Option Track) × Store × List Effect :=
  -- Get the track from queue.
  let (trackOpt, store) := store.with_track_manger guild_id
    (fun track_manager => track_manager.next_track)
  match trackOpt with
  | none => (.ok none, store, [])
  | some track =>
    -- Select player.
    let tr := [Effect.playerLookup guild_id]
    match env.player guild_id with
    | none => (.error .playerUnavailable, store, tr)
    | some _player =>
      -- Issue play command.
      let tr := tr ++ [Effect.sendPlay guild_id track.track]
      if env.sendOk then (.ok (some track), store, tr)
      else (.error .sendFailed, store, tr)

/-- src/action.rs `stop`: select the player, issue the destroy directive,
then leave the voice channel. -/
def stop (env : Env) (store : Store) (guild_id : GuildId) :
    Except ActionError Unit × Store × List Effect :=
  -- Issue stop command.
  let tr := [Effect.playerLookup guild_id]
  match env.player guild_id with
  | none => (.error .playerUnavailable, store, tr)
  | some _player =>
    let tr := tr ++ [Effect.sendDestroy guild_id]
    if env.sendOk then
      -- Leave the voice channel.
      let tr := tr ++ [Effect.leaveVoice guild_id]
      if env.leaveOk guild_id then (.ok (), store, tr)
      else (.error .gatewayCommandFailed, store, tr)
    else (.error .sendFailed, store, tr)

/-- src/action.rs `volume`: validate `VOLUME_BOUNDS = 0..=1000` first
(returning `VolumeValueOutOfBounds` with no remote interaction), then
select the player and issue the volume directive carrying the value. -/
def volume (env : Env) (store : Store) (guild_id : GuildId) (value : Int) :
    Except ActionError Int × Store × List Effect :=
  -- Validate input bounds: `!VOLUME_BOUNDS.contains(&volume)`.
  if 0 ≤ value ∧ value ≤ 1000 then
    -- Issue volume command.
    let tr := [Effect.playerLookup guild_id]
    match env.player guild_id with
    | none => (.error .playerUnavailable, store, tr)
    | some _player =>
      let tr := tr ++ [Effect.sendVolume guild_id value]
      if env.sendOk then (.ok value, store, tr) else (.error .sendFailed, store, tr)
  else (.error (.volumeValueOutOfBounds value), store, [])

/-- src/action.rs `seek`: select the player and issue the seek directive. -/
def seek (env : Env) (store : Store) (guild_id : GuildId) (position_in_millis : Int) :
    Except ActionError Int × Store × List Effect :=
  -- Issue seek command.
  let tr := [Effect.playerLookup guild_id]
  match env.player guild_id with
  | none => (.error .playerUnavailable, store, tr)
  | some _player =>
    let tr := tr ++ [Effect.sendSeek guild_id position_in_millis]
    if env.sendOk then (.ok position_in_millis, store, tr)
    else (.error .sendFailed, store, tr)

/-- src/action.rs `pause_toggle`: read the player's paused flag, issue a
pause directive carrying its negation, return the negation. -/
def pause_toggle (env : Env) (store : Store) (guild_id : GuildId) :
    Except ActionError Bool × Store × List Effect :=
  -- Prepare and issue pause toggle command.
  let tr := [Effect.playerLookup guild_id]
  match env.player guild_id with
  | none => (.error .playerUnavailable, store, tr)
  | some player =>
    let was_paused := player.paused
    let should_be_paused := !was_paused
    let tr := tr ++ [Effect.sendPause guild_id should_be_paused]
    if env.sendOk then (.ok should_be_paused, store, tr)
    else (.error .sendFailed, store, tr)

/-- src/helper.rs `user_voice_channel`: look up the author's voice state
in the cache; absent state or absent channel id both yield `None` (the
function's `Result` is never an error in the source). -/
def user_voice_channel (env : Env) (guild_id : GuildId) (user_id : UserId) :
    Option ChannelId :=
  match env.voice_state user_id guild_id with
  | none => none
  | some user_voice_state => user_voice_state.channel_id

/-- src/main.rs `format_track`: `"**{title}** by **{author}**"` with each
metadata field defaulting to the empty string. -/
def format_track (track : Track) : String :=
  let title := track.title.getD ""
  let author := track.author.getD ""
  s!"**{title}** by **{author}**"

/-- An inbound guild chat message (the fields `process_event` reads). -/
structure Msg where
  guild_id : Option GuildId
  channel_id : ChannelId
  author_id : UserId
  content : String
deriving Repr, DecidableEq

/-- Rust `str::strip_prefix`: the remainder after the given leading
string, or `none` when the content does not start with it. -/
def stripLeading (pre s : String) : Option String :=
  if pre.data.isPrefixOf s.data then some (String.mk (s.data.drop pre.data.length))
  else none

/-- Rust `str::split(c)` on a character list: the pieces between
occurrences of `c`, empty pieces kept; the result is always non-empty. -/
def splitOnChar (c : Char) : List Char → List (List Char)
  | [] => [[]]
  | x :: xs =>
    match splitOnChar c xs with
    | [] => [[]]
    | y :: ys => if x = c then [] :: y :: ys else (x :: y) :: ys

/-- src/main.rs: `command.split(' ').map(ToOwned::to_owned).collect()`. -/
def splitArgs (command : String) : List String :=
  (splitOnChar ' ' command.data).map String.mk

/-- src/main.rs, the `"play"` arm of `process_event`: first argument is
the identifier (reply "Pass track as an argument" when missing), then the
author's voice channel is required, then `action::play` runs and its
outcome is reported ("Playing …" / "No tracks found" / logged error). -/
def handle_play (env : Env) (store : Store) (guild_id : GuildId)
    (reply_channel : ChannelId) (author_id : UserId) (args : List String) :
    Store × List Effect :=
  match args with
  | [] => (store, [Effect.reply reply_channel "Pass track as an argument"])
  | identifier :: _ =>
    match user_voice_channel env guild_id author_id with
    | none => (store, [Effect.reply reply_channel "You need to join a voice channel first"])
    | some channel_id =>
      match play env store guild_id channel_id identifier with
      | (.ok track, store, tr) =>
        let ft := format_track track
        (store, tr ++ [Effect.reply reply_channel s!"Playing {ft}"])
      | (.error .noTracksFound, store, tr) =>
        (store, tr ++ [Effect.reply reply_channel "No tracks found"])
      | (.error _, store, tr) => (store, tr)

/-- src/main.rs, the `"add" | "enqueue"` arm of `process_event`: same
shape as the `"play"` arm but running `action::enqueue` and reporting
"Enqueued …". -/
def handle_add (env : Env) (store : Store) (guild_id : GuildId)
    (reply_channel : ChannelId) (author_id : UserId) (args : List String) :
    Store × List Effect :=
  match args with
  | [] => (store, [Effect.reply reply_channel "Pass track as an argument"])
  | identifier :: _ =>
    match user_voice_channel env guild_id author_id with
    | none => (store, [Effect.reply reply_channel "You need to join a voice channel first"])
    | some channel_id =>
      match enqueue env store guild_id channel_id identifier with
      | (.ok track, store, tr) =>
        let ft := format_track track
        (store, tr ++ [Effect.reply reply_channel s!"Enqueued {ft}"])
      | (.error .noTracksFound, store, tr) =>
        (store, tr ++ [Effect.reply reply_channel "No tracks found"])
      | (.error _, store, tr) => (store, tr)

/-- src/main.rs, the `"volume"` arm of `process_event`: parse the first
argument as an integer (the parse-failure reply's trailing error display
is abstracted), run `action::volume`, and report the outcome; the
out-of-bounds reply interpolates the error's display string. -/
def handle_volume (env : Env) (store : Store) (guild_id : GuildId)
    (reply_channel : ChannelId) (args : List String) : Store × List Effect :=
  match args with
  | [] => (store, [Effect.reply reply_channel "Pass volume value as an argument"])
  | valueStr :: _ =>
    match valueStr.toInt? with
    | none => (store, [Effect.reply reply_channel "Volume value is invalid"])
    | some value =>
      match volume env store guild_id value with
      | (.ok val, store, tr) =>
        let vs := toString val
        (store, tr ++ [Effect.reply reply_channel s!"Volume was set to {vs}"])
      | (.error (.volumeValueOutOfBounds v), store, tr) =>
        let vs := toString v
        (store, tr ++ [Effect.reply reply_channel
          s!"Invalid volume value: volume value is out of bounds: {vs}, must be in 0..=1000"])
      | (.error _, store, tr) => (store, tr)

/-- src/main.rs, the `"seek"` arm of `process_event`: parse the first
argument as an integer (the parse-failure reply's trailing error display
is abstracted), run `action::seek`, and report the new position. -/
def handle_seek (env : Env) (store : Store) (guild_id : GuildId)
    (reply_channel : ChannelId) (args : List String) : Store × List Effect :=
  match args with
  | [] => (store, [Effect.reply reply_channel "Pass seek position in milliseconds as an argument"])
  | valueStr :: _ =>
    match valueStr.toInt? with
    | none => (store, [Effect.reply reply_channel "Position is invalid"])
    | some value =>
      match seek env store guild_id value with
      | (.ok val, store, tr) =>
        let vs := toString val
        (store, tr ++ [Effect.reply reply_channel s!"Position was set to {vs}ms"])
      | (.error _, store, tr) => (store, tr)

/-- src/main.rs, the `"pause"` arm of `process_event`: run
`action::pause_toggle` and report "Paused" or "Unpaused". -/
def handle_pause (env : Env) (store : Store) (guild_id : GuildId)
    (reply_channel : ChannelId) : Store × List Effect :=
  match pause_toggle env store guild_id with
  | (.ok val, store, tr) =>
    (store, tr ++ [Effect.reply reply_channel (if val then "Paused" else "Unpaused")])
  | (.error _, store, tr) => (store, tr)

/-- src/main.rs, the `"stop"` arm of `process_event`: run `action::stop`;
its result is only logged, never reported. -/
def handle_stop (env : Env) (store : Store) (guild_id : GuildId) :
    Store × List Effect :=
  match stop env store guild_id with
  | (_, store, tr) => (store, tr)

/-- src/main.rs `process_event` for `MessageCreate`: require a guild id,
strip the command prefix, split the remainder on spaces (Rust `split(' ')`
always yields at least one, possibly empty, piece), associate the message's
channel as the guild's text channel, then dispatch on the command name;
unrecognized commands are silently ignored.  The spawned per-command tasks
are run inline here, sequentially. -/
def process_event (env : Env) (store : Store) (msg : Msg) : Store × List Effect :=
  match msg.guild_id with
  | none => (store, [])
  | some guild_id =>
    match stripLeading env.commandPrefixStr msg.content with
    | none => (store, [])
    | some command =>
      match splitArgs command with
      | [] => (store, [])
      | command :: args =>
        let store := store.associate_text_channel guild_id msg.channel_id
        if command = "play" then
          handle_play env store guild_id msg.channel_id msg.author_id args
        else if command = "add" ∨ command = "enqueue" then
          handle_add env store guild_id msg.channel_id msg.author_id args
        else if command = "stop" then
          handle_stop env store guild_id
        else if command = "volume" then
          handle_volume env store guild_id msg.channel_id args
        else if command = "seek" then
          handle_seek env store guild_id msg.channel_id args
        else if command = "pause" then
          handle_pause env store guild_id msg.channel_id
        else if command = "ping" then
          (store, [Effect.reply msg.channel_id "pong"])
        else (store, [])

/-! ### Concrete environments and data used by the witnesses -/

/-- A concrete track with metadata. -/
def trackA : Track := { track := "tokA", title := some "Song", author := some "Artist" }

/-- A second concrete track. -/
def trackB : Track := { track := "tokB", title := none, author := none }

/-- An environment where every collaborator succeeds: join/leave accepted,
a non-paused player is available, every load yields `[trackA, trackB]`,
sends succeed, and every user is in voice channel 7. -/
def envA : Env where
  commandPrefixStr := "!"
  joinOk := fun _ _ => true
  leaveOk := fun _ => true
  player := fun _ => some { paused := false }
  loadTracks := fun _ => .ok { tracks := [trackA, trackB] }
  sendOk := true
  voice_state := fun _ _ => some { channel_id := some 7 }

/-- Like `envA` but the player reports `paused = true`. -/
def envB : Env where
  commandPrefixStr := "!"
  joinOk := fun _ _ => true
  leaveOk := fun _ => true
  player := fun _ => some { paused := true }
  loadTracks := fun _ => .ok { tracks := [trackA, trackB] }
  sendOk := true
  voice_state := fun _ _ => some { channel_id := some 7 }

/-- Like `envA` but no voice state is cached for any user. -/
def envNoVoice : Env where
  commandPrefixStr := "!"
  joinOk := fun _ _ => true
  leaveOk := fun _ => true
  player := fun _ => some { paused := false }
  loadTracks := fun _ => .ok { tracks := [trackA, trackB] }
  sendOk := true
  voice_state := fun _ _ => none

/-- Like `envA` but the track-load HTTP exchange fails in transport. -/
def envLoadErr : Env where
  commandPrefixStr := "!"
  joinOk := fun _ _ => true
  leaveOk := fun _ => true
  player := fun _ => some { paused := false }
  loadTracks := fun _ => .error .transport
  sendOk := true
  voice_state := fun _ _ => some { channel_id := some 7 }

/-- Like `envA` but the gateway rejects the voice join command. -/
def envJoinFail : Env where
  commandPrefixStr := "!"
  joinOk := fun _ _ => false
  leaveOk := fun _ => true
  player := fun _ => some { paused := false }
  loadTracks := fun _ => .ok { tracks := [trackA, trackB] }
  sendOk := true
  voice_state := fun _ _ => some { channel_id := some 7 }

/-- Like `envA` but every load yields an empty result set. -/
def envEmptyLoad : Env where
  commandPrefixStr := "!"
  joinOk := fun _ _ => true
  leaveOk := fun _ => true
  player := fun _ => some { paused := false }
  loadTracks := fun _ => .ok { tracks := [] }
  sendOk := true
  voice_state := fun _ _ => some { channel_id := some 7 }

/-! ### Store lemmas shared by several claims -/

theorem getEntry_setEntry_self (s : Store) (g : GuildId) (d : PerGuildData) :
    (s.setEntry g d).getEntry g = some d := by
  simp [Store.setEntry, Store.getEntry, List.lookup]

theorem getEntry_setEntry_other (s : Store) (g g2 : GuildId) (d : PerGuildData)
    (h : g2 ≠ g) : (s.setEntry g d).getEntry g2 = s.getEntry g2 := by
  have hb : (g2 == g) = false := beq_eq_false_iff_ne.mpr h
  simp [Store.setEntry, Store.getEntry, List.lookup, hb]

theorem with_track_manger_enqueue_queue (s : Store) (g : GuildId) (ts : List Track) :
    ((s.with_track_manger g (fun tm => ((), tm.enqueue ts))).2).guild_queue g =
      s.guild_queue g ++ ts := by
  rcases hE : s.getEntry g with _ | d <;>
    simp [Store.with_track_manger, hE, TrackManager.enqueue,
      Store.guild_queue, getEntry_setEntry_self]

theorem with_track_manger_guild_queue_other {V : Type} (s : Store) (g g2 : GuildId)
    (f : TrackManager → V × TrackManager) (h : g2 ≠ g) :
    ((s.with_track_manger g f).2).guild_queue g2 = s.guild_queue g2 := by
  rcases hw : f ((s.getEntry g).getD {}).track_manager with ⟨v, tm⟩
  simp [Store.with_track_manger, hw, Store.guild_queue, getEntry_setEntry_other _ _ _ _ h]

theorem with_track_manger_channel {V : Type} (s : Store) (g g2 : GuildId)
    (f : TrackManager → V × TrackManager) :
    ((s.with_track_manger g f).2).get_associated_text_channel g2 =
      s.get_associated_text_channel g2 := by
  rcases hw : f ((s.getEntry g).getD {}).track_manager with ⟨v, tm⟩
  by_cases h : g2 = g
  · subst h
    rcases hE : s.getEntry g2 with _ | d <;>
      simp [Store.with_track_manger, hw, hE,
        Store.get_associated_text_channel, getEntry_setEntry_self]
  · simp [Store.with_track_manger, hw,
      Store.get_associated_text_channel, getEntry_setEntry_other _ _ _ _ h]

/-! ### Claims -/

/-- C1: the claim states that enqueuing t1, t2, t3 and then dequeuing
three times returns t1, t2, t3 (FIFO).  The code's `next_track` is
`Vec::pop`, which removes from the TAIL: the dequeues return t3, t2, t1
(LIFO), contradicting the claimed FIFO order. -/
theorem C1_enqueue_three_then_dequeue_is_lifo :
    (((TrackManager.enqueue {} [{ track := "t1", title := none, author := none }]).enqueue
        [{ track := "t2", title := none, author := none }]).enqueue
        [{ track := "t3", title := none, author := none }]).next_track.1
        = some { track := "t3", title := none, author := none } ∧
    ((((TrackManager.enqueue {} [{ track := "t1", title := none, author := none }]).enqueue
        [{ track := "t2", title := none, author := none }]).enqueue
        [{ track := "t3", title := none, author := none }]).next_track.2.next_track.1
        = some { track := "t2", title := none, author := none }) ∧
    ((((TrackManager.enqueue {} [{ track := "t1", title := none, author := none }]).enqueue
        [{ track := "t2", title := none, author := none }]).enqueue
        [{ track := "t3", title := none, author := none
        }]).next_track.2.next_track.2.next_track.1
        = some { track := "t1", title := none, author := none }) := by
  refine ⟨rfl, rfl, rfl⟩

/-- C2: volume values outside [0, 1000] are rejected with
`VolumeValueOutOfBounds` carrying the value and produce no effect at all
(no player lookup, no directive); values inside the bounds (endpoints
included) produce exactly a player lookup followed by a Volume directive
carrying the value, and the action returns the value. -/
theorem C2_volume_bounds_checked_before_any_remote_call (env : Env) (store : Store)
    (g : GuildId) (v : Int) (p : Player) :
    (¬(0 ≤ v ∧ v ≤ 1000) →
      volume env store g v = (.error (.volumeValueOutOfBounds v), store, [])) ∧
    ((0 ≤ v ∧ v ≤ 1000) → env.player g = some p → env.sendOk = true →
      volume env store g v = (.ok v, store, [.playerLookup g, .sendVolume g v])) := by
  constructor
  · intro h
    simp [volume, h]
  · intro h hp hs
    simp [volume, h, hp, hs]

/-- Witness for C2 at v = -1 and v = 1001 (rejected, no effects) and at
the endpoints v = 0 and v = 1000 (directive carries the value). -/
theorem C2_volume_bounds_checked_before_any_remote_call_witness :
    volume envA {} 1 (-1) = (.error (.volumeValueOutOfBounds (-1)), {}, []) ∧
    volume envA {} 1 1001 = (.error (.volumeValueOutOfBounds 1001), {}, []) ∧
    volume envA {} 1 0 = (.ok 0, {}, [.playerLookup 1, .sendVolume 1 0]) ∧
    volume envA {} 1 1000 = (.ok 1000, {}, [.playerLookup 1, .sendVolume 1 1000]) :=
  ⟨(C2_volume_bounds_checked_before_any_remote_call envA {} 1 (-1) default).1 (by decide),
   (C2_volume_bounds_checked_before_any_remote_call envA {} 1 1001 default).1 (by decide),
   (C2_volume_bounds_checked_before_any_remote_call envA {} 1 0
      { paused := false }).2 (by decide) rfl rfl,
   (C2_volume_bounds_checked_before_any_remote_call envA {} 1 1000
      { paused := false }).2 (by decide) rfl rfl⟩

/-- C7: `pause_toggle` reads the player's paused flag, issues a Pause
directive carrying its negation and returns that negation. -/
theorem C7_pause_toggle_sends_and_returns_negation (env : Env) (store : Store)
    (g : GuildId) (p : Player) (hp : env.player g = some p)
    (hs : env.sendOk = true) :
    pause_toggle env store g =
      (.ok (!p.paused), store, [.playerLookup g, .sendPause g (!p.paused)]) := by
  simp [pause_toggle, hp, hs]

/-- Witness for C7: with a player reporting paused = false the directive
carries true and true is returned; with paused = true it carries false. -/
theorem C7_pause_toggle_sends_and_returns_negation_witness :
    pause_toggle envA {} 1 = (.ok true, {}, [.playerLookup 1, .sendPause 1 true]) ∧
    pause_toggle envB {} 1 = (.ok false, {}, [.playerLookup 1, .sendPause 1 false]) :=
  ⟨C7_pause_toggle_sends_and_returns_negation envA {} 1 { paused := false } rfl rfl,
   C7_pause_toggle_sends_and_returns_negation envB {} 1 { paused := true } rfl rfl⟩

/-- C3: on a guild whose session queue is empty, `play_from_queue`
returns `Ok(None)`, issues no effect at all (in particular no player
lookup and no play directive), and the queue stays empty. -/
theorem C3_play_from_queue_empty_is_silent (env : Env) (store : Store) (g : GuildId)
    (h : store.guild_queue g = []) :
    (play_from_queue env store g).1 = .ok none ∧
    (play_from_queue env store g).2.2 = [] ∧
    (play_from_queue env store g).2.1.guild_queue g = [] := by
  rcases hE : store.getEntry g with _ | d
  · simp [play_from_queue, Store.with_track_manger, hE, TrackManager.next_track,
      Store.guild_queue, getEntry_setEntry_self]
  · have hq : d.track_manager.track_queue = [] := by
      simpa [Store.guild_queue, hE] using h
    simp [play_from_queue, Store.with_track_manger, hE, TrackManager.next_track, hq,
      Store.guild_queue, getEntry_setEntry_self]

/-- Witness for C3: the empty store for guild 1. -/
theorem C3_play_from_queue_empty_is_silent_witness :
    (play_from_queue envA {} 1).1 = .ok none ∧
    (play_from_queue envA {} 1).2.2 = [] ∧
    (play_from_queue envA {} 1).2.1.guild_queue 1 = [] :=
  C3_play_from_queue_empty_is_silent envA {} 1 rfl

/-- C4: when resolution succeeds (join accepted, player available, the
load yields a non-empty list), the enqueue action returns the first
loaded track, appends exactly that one entry at the tail of the guild's
queue, touches no other guild's queue, and issues no play directive. -/
theorem C4_enqueue_appends_exactly_one_and_never_plays (env : Env) (store : Store)
    (g : GuildId) (c : ChannelId) (identifier : String) (p : Player) (t : Track)
    (rest : List Track) (hj : env.joinOk g c = true) (hp : env.player g = some p)
    (hl : env.loadTracks identifier = .ok { tracks := t :: rest }) :
    (enqueue env store g c identifier).1 = .ok t ∧
    (enqueue env store g c identifier).2.1.guild_queue g = store.guild_queue g ++ [t] ∧
    (∀ g2, g2 ≠ g →
      (enqueue env store g c identifier).2.1.guild_queue g2 = store.guild_queue g2) ∧
    (∀ g2 tok, Effect.sendPlay g2 tok ∉ (enqueue env store g c identifier).2.2) := by
  rcases hw : store.with_track_manger g (fun tm => ((), tm.enqueue [t])) with ⟨u, s2⟩
  have hstep : enqueue env store g c identifier =
      (.ok t, s2,
        [Effect.joinVoice g c, Effect.playerLookup g, Effect.httpLoadTracks identifier]) := by
    simp [enqueue, hj, hp, hl, hw]
  refine ⟨by simp [hstep], ?_, ?_, ?_⟩
  · have := with_track_manger_enqueue_queue store g [t]
    rw [hw] at this
    simp [hstep, this]
  · intro g2 hne
    have := with_track_manger_guild_queue_other store g g2
      (fun tm => ((), tm.enqueue [t])) hne
    rw [hw] at this
    simp [hstep, this]
  · intro g2 tok
    simp [hstep]

/-- Witness for C4: guild 1, the empty store, `envA` (which loads
`[trackA, trackB]` for any identifier). -/
theorem C4_enqueue_appends_exactly_one_and_never_plays_witness :
    (enqueue envA {} 1 2 "q").1 = .ok trackA ∧
    (enqueue envA {} 1 2 "q").2.1.guild_queue 1 = Store.guild_queue {} 1 ++ [trackA] ∧
    (enqueue envA {} 1 2 "q").2.1.guild_queue 2 = Store.guild_queue {} 2 ∧
    Effect.sendPlay 1 "tokA" ∉ (enqueue envA {} 1 2 "q").2.2 := by
  obtain ⟨h1, h2, h3, h4⟩ := C4_enqueue_appends_exactly_one_and_never_plays envA {} 1 2 "q"
    { paused := false } trackA [trackB] rfl rfl rfl
  exact ⟨h1, h2, h3 2 (by decide), h4 1 "tokA"⟩

/-- C9: if the enqueue action fails for any reason, the store — and so
every guild's queue — is exactly what it was; on success the only session
mutation is the final append of the returned track. -/
theorem C9_enqueue_failure_leaves_store_unchanged (env : Env) (store : Store)
    (g : GuildId) (c : ChannelId) (identifier : String) :
    (∀ e, (enqueue env store g c identifier).1 = .error e →
      (enqueue env store g c identifier).2.1 = store) ∧
    (∀ t, (enqueue env store g c identifier).1 = .ok t →
      (enqueue env store g c identifier).2.1 =
        (store.with_track_manger g (fun tm => ((), tm.enqueue [t]))).2) := by
  rcases hj : env.joinOk g c with _ | _
  · simp [enqueue, hj]
  · rcases hp : env.player g with _ | p
    · simp [enqueue, hj, hp]
    · rcases hl : env.loadTracks identifier with e0 | l
      · simp [enqueue, hj, hp, hl]
      · obtain ⟨lt⟩ := l
        rcases lt with _ | ⟨t0, rest⟩
        · simp [enqueue, hj, hp, hl]
        · rcases hw : store.with_track_manger g (fun tm => ((), tm.enqueue [t0]))
            with ⟨u, s2⟩
          constructor
          · intro e he
            simp [enqueue, hj, hp, hl, hw] at he
          · intro t ht
            have ht0 : t0 = t := by simpa [enqueue, hj, hp, hl, hw] using ht
            subst ht0
            simp [enqueue, hj, hp, hl, hw]

/-- Witness for C9: a rejected join leaves the store unchanged (error
side), and with `envA` the successful enqueue's store is exactly the
single append (success side). -/
theorem C9_enqueue_failure_leaves_store_unchanged_witness :
    (enqueue envJoinFail {} 1 2 "q").2.1 = {} ∧
    (enqueue envA {} 1 2 "q").2.1 =
      (Store.with_track_manger {} 1 (fun tm => ((), tm.enqueue [trackA]))).2 :=
  ⟨(C9_enqueue_failure_leaves_store_unchanged envJoinFail {} 1 2 "q").1
      .gatewayCommandFailed rfl,
   (C9_enqueue_failure_leaves_store_unchanged envA {} 1 2 "q").2 trackA rfl⟩

/-- C5: for both `play` and `enqueue` (once the join and the player
lookup succeed), resolution yields exactly the first track of the loaded
list, alternates are discarded; the result is the NoTracksFound error if
and only if the load succeeded with an empty result set; and a
transport/parse failure is a `loadFailed` error, a different constructor
from `noTracksFound`. -/
theorem C5_resolution_takes_first_and_distinguishes_not_found (env : Env)
    (store : Store) (g : GuildId) (c : ChannelId) (identifier : String) (p : Player)
    (hj : env.joinOk g c = true) (hp : env.player g = some p) :
    (∀ t rest, env.loadTracks identifier = .ok { tracks := t :: rest } →
      env.sendOk = true → (play env store g c identifier).1 = .ok t) ∧
    ((play env store g c identifier).1 = .error .noTracksFound ↔
      env.loadTracks identifier = .ok { tracks := [] }) ∧
    (∀ t rest, env.loadTracks identifier = .ok { tracks := t :: rest } →
      (enqueue env store g c identifier).1 = .ok t) ∧
    ((enqueue env store g c identifier).1 = .error .noTracksFound ↔
      env.loadTracks identifier = .ok { tracks := [] }) ∧
    (∀ e0, ActionError.loadFailed e0 ≠ ActionError.noTracksFound) := by
  refine ⟨?_, ?_, ?_, ?_, fun e0 h => by cases h⟩
  · intro t rest hl hs
    simp [play, hj, hp, hl, hs]
  · rcases hl : env.loadTracks identifier with e0 | l
    · simp [play, hj, hp, hl]
    · obtain ⟨lt⟩ := l
      rcases lt with _ | ⟨t0, rest0⟩
      · simp [play, hj, hp, hl]
      · rcases hs : env.sendOk with _ | _ <;> simp [play, hj, hp, hl, hs]
  · intro t rest hl
    rcases hw : store.with_track_manger g (fun tm => ((), tm.enqueue [t])) with ⟨u, s2⟩
    simp [enqueue, hj, hp, hl, hw]
  · rcases hl : env.loadTracks identifier with e0 | l
    · simp [enqueue, hj, hp, hl]
    · obtain ⟨lt⟩ := l
      rcases lt with _ | ⟨t0, rest0⟩
      · simp [enqueue, hj, hp, hl]
      · rcases hw : store.with_track_manger g (fun tm => ((), tm.enqueue [t0]))
          with ⟨u, s2⟩
        simp [enqueue, hj, hp, hl, hw]

/-- Witness for C5: `envA` loads `[trackA, trackB]` (first taken, second
discarded), `envEmptyLoad` loads an empty result set (NoTracksFound), and
a transport failure is a distinct error value. -/
theorem C5_resolution_takes_first_and_distinguishes_not_found_witness :
    (play envA {} 1 2 "q").1 = .ok trackA ∧
    (play envEmptyLoad {} 1 2 "q").1 = .error .noTracksFound ∧
    (enqueue envA {} 1 2 "q").1 = .ok trackA ∧
    ActionError.loadFailed .transport ≠ ActionError.noTracksFound :=
  ⟨(C5_resolution_takes_first_and_distinguishes_not_found envA {} 1 2 "q"
      { paused := false } rfl rfl).1 trackA [trackB] rfl rfl,
   (C5_resolution_takes_first_and_distinguishes_not_found envEmptyLoad {} 1 2 "q"
      { paused := false } rfl rfl).2.1.mpr rfl,
   (C5_resolution_takes_first_and_distinguishes_not_found envA {} 1 2 "q"
      { paused := false } rfl rfl).2.2.1 trackA [trackB] rfl,
   (C5_resolution_takes_first_and_distinguishes_not_found envA {} 1 2 "q"
      { paused := false } rfl rfl).2.2.2.2 .transport⟩

/-- The effects addressed to the audio node: player lookup, the
track-load HTTP request, and the play/destroy/pause/volume/seek
directives.  Gateway voice commands and text replies are not node
operations. -/
def Effect.isNodeOp : Effect → Bool
  | .playerLookup _ => true
  | .httpLoadTracks _ => true
  | .sendPlay _ _ => true
  | .sendDestroy _ => true
  | .sendPause _ _ => true
  | .sendVolume _ _ => true
  | .sendSeek _ _ => true
  | .joinVoice _ _ => false
  | .leaveVoice _ => false
  | .reply _ _ => false

/-- `issuedBefore a b tr`: in the ordered trace `tr`, no occurrence of
`b` comes before the first occurrence of `a` (vacuously true when `b`
never occurs; false when `b` occurs without a preceding `a`). -/
def issuedBefore (a b : Effect) (tr : List Effect) : Bool :=
  (tr.takeWhile (fun e => e != a)).all (fun e => e != b)

/-- In every execution, the trace of `play` starts with the voice join. -/
theorem play_trace_starts_with_join (env : Env) (store : Store) (g : GuildId)
    (c : ChannelId) (identifier : String) :
    ∃ rest, (play env store g c identifier).2.2 = Effect.joinVoice g c :: rest := by
  rcases hj : env.joinOk g c with _ | _
  · exact ⟨[], by simp [play, hj]⟩
  · rcases hp : env.player g with _ | p
    · exact ⟨[Effect.playerLookup g], by simp [play, hj, hp]⟩
    · rcases hl : env.loadTracks identifier with e0 | l
      · exact ⟨[Effect.playerLookup g, Effect.httpLoadTracks identifier],
          by simp [play, hj, hp, hl]⟩
      · obtain ⟨lt⟩ := l
        rcases lt with _ | ⟨t0, rest0⟩
        · exact ⟨[Effect.playerLookup g, Effect.httpLoadTracks identifier],
            by simp [play, hj, hp, hl]⟩
        · rcases hs : env.sendOk with _ | _ <;>
            exact ⟨[Effect.playerLookup g, Effect.httpLoadTracks identifier,
              Effect.sendPlay g t0.track], by simp [play, hj, hp, hl, hs]⟩

/-- In every execution, the trace of `enqueue` starts with the voice join. -/
theorem enqueue_trace_starts_with_join (env : Env) (store : Store) (g : GuildId)
    (c : ChannelId) (identifier : String) :
    ∃ rest, (enqueue env store g c identifier).2.2 = Effect.joinVoice g c :: rest := by
  rcases hj : env.joinOk g c with _ | _
  · exact ⟨[], by simp [enqueue, hj]⟩
  · rcases hp : env.player g with _ | p
    · exact ⟨[Effect.playerLookup g], by simp [enqueue, hj, hp]⟩
    · rcases hl : env.loadTracks identifier with e0 | l
      · exact ⟨[Effect.playerLookup g, Effect.httpLoadTracks identifier],
          by simp [enqueue, hj, hp, hl]⟩
      · obtain ⟨lt⟩ := l
        rcases lt with _ | ⟨t0, rest0⟩
        · exact ⟨[Effect.playerLookup g, Effect.httpLoadTracks identifier],
            by simp [enqueue, hj, hp, hl]⟩
        · rcases hw : store.with_track_manger g (fun tm => ((), tm.enqueue [t0]))
            with ⟨u, s2⟩
          exact ⟨[Effect.playerLookup g, Effect.httpLoadTracks identifier],
            by simp [enqueue, hj, hp, hl, hw]⟩

/-- C8: in every execution of `play` and `enqueue` the voice join is
issued before any node operation (player lookup, track load, play
directive), and in every execution of `stop` the destroy directive is
issued before the voice leave. -/
theorem C8_join_before_node_ops_and_destroy_before_leave (env : Env) (store : Store)
    (g : GuildId) (c : ChannelId) (identifier : String) :
    (∀ e, e.isNodeOp = true →
      issuedBefore (Effect.joinVoice g c) e (play env store g c identifier).2.2 = true) ∧
    (∀ e, e.isNodeOp = true →
      issuedBefore (Effect.joinVoice g c) e
        (enqueue env store g c identifier).2.2 = true) ∧
    issuedBefore (Effect.sendDestroy g) (Effect.leaveVoice g)
      (stop env store g).2.2 = true := by
  refine ⟨?_, ?_, ?_⟩
  · intro e _he
    obtain ⟨rest, hr⟩ := play_trace_starts_with_join env store g c identifier
    simp [hr, issuedBefore]
  · intro e _he
    obtain ⟨rest, hr⟩ := enqueue_trace_starts_with_join env store g c identifier
    simp [hr, issuedBefore]
  · rcases hp : env.player g with _ | p
    · simp [stop, hp, issuedBefore]
    · rcases hs : env.sendOk with _ | _
      · simp [stop, hp, hs, issuedBefore]
      · rcases hl : env.leaveOk g with _ | _ <;>
          simp [stop, hp, hs, hl, issuedBefore]

/-- Witness for C8: concrete node operations in the traces of `play`,
`enqueue` and `stop` under `envA`. -/
theorem C8_join_before_node_ops_and_destroy_before_leave_witness :
    issuedBefore (Effect.joinVoice 1 2) (Effect.playerLookup 1)
      (play envA {} 1 2 "q").2.2 = true ∧
    issuedBefore (Effect.joinVoice 1 2) (Effect.httpLoadTracks "q")
      (enqueue envA {} 1 2 "q").2.2 = true ∧
    issuedBefore (Effect.sendDestroy 1) (Effect.leaveVoice 1)
      (stop envA {} 1).2.2 = true :=
  ⟨(C8_join_before_node_ops_and_destroy_before_leave envA {} 1 2 "q").1
      (Effect.playerLookup 1) rfl,
   (C8_join_before_node_ops_and_destroy_before_leave envA {} 1 2 "q").2.1
      (Effect.httpLoadTracks "q") rfl,
   (C8_join_before_node_ops_and_destroy_before_leave envA {} 1 2 "q").2.2⟩

/-! ### Store-preservation lemmas for the command handlers -/

theorem play_store_eq (env : Env) (store : Store) (g : GuildId) (c : ChannelId)
    (identifier : String) : (play env store g c identifier).2.1 = store := by
  rcases hj : env.joinOk g c with _ | _
  · simp [play, hj]
  · rcases hp : env.player g with _ | p
    · simp [play, hj, hp]
    · rcases hl : env.loadTracks identifier with e0 | l
      · simp [play, hj, hp, hl]
      · obtain ⟨lt⟩ := l
        rcases lt with _ | ⟨t0, r0⟩
        · simp [play, hj, hp, hl]
        · rcases hs : env.sendOk with _ | _ <;> simp [play, hj, hp, hl, hs]

theorem stop_store_eq (env : Env) (store : Store) (g : GuildId) :
    (stop env store g).2.1 = store := by
  rcases hp : env.player g with _ | p
  · simp [stop, hp]
  · rcases hs : env.sendOk with _ | _
    · simp [stop, hp, hs]
    · rcases hl : env.leaveOk g with _ | _ <;> simp [stop, hp, hs, hl]

theorem volume_store_eq (env : Env) (store : Store) (g : GuildId) (v : Int) :
    (volume env store g v).2.1 = store := by
  by_cases hb : 0 ≤ v ∧ v ≤ 1000
  · rcases hp : env.player g with _ | p
    · simp [volume, hb, hp]
    · rcases hs : env.sendOk with _ | _ <;> simp [volume, hb, hp, hs]
  · simp [volume, hb]

theorem seek_store_eq (env : Env) (store : Store) (g : GuildId) (v : Int) :
    (seek env store g v).2.1 = store := by
  rcases hp : env.player g with _ | p
  · simp [seek, hp]
  · rcases hs : env.sendOk with _ | _ <;> simp [seek, hp, hs]

theorem pause_toggle_store_eq (env : Env) (store : Store) (g : GuildId) :
    (pause_toggle env store g).2.1 = store := by
  rcases hp : env.player g with _ | p
  · simp [pause_toggle, hp]
  · rcases hs : env.sendOk with _ | _ <;> simp [pause_toggle, hp, hs]

theorem enqueue_channel_eq (env : Env) (store : Store) (g : GuildId) (c : ChannelId)
    (identifier : String) (g2 : GuildId) :
    ((enqueue env store g c identifier).2.1).get_associated_text_channel g2 =
      store.get_associated_text_channel g2 := by
  rcases hj : env.joinOk g c with _ | _
  · simp [enqueue, hj]
  · rcases hp : env.player g with _ | p
    · simp [enqueue, hj, hp]
    · rcases hl : env.loadTracks identifier with e0 | l
      · simp [enqueue, hj, hp, hl]
      · obtain ⟨lt⟩ := l
        rcases lt with _ | ⟨t0, r0⟩
        · simp [enqueue, hj, hp, hl]
        · rcases hw : store.with_track_manger g (fun tm => ((), tm.enqueue [t0]))
            with ⟨u, s2⟩
          have := with_track_manger_channel store g g2 (fun tm => ((), tm.enqueue [t0]))
          rw [hw] at this
          simp [enqueue, hj, hp, hl, hw, this]

theorem handle_play_channel_eq (env : Env) (s : Store) (g : GuildId) (ch : ChannelId)
    (a : UserId) (args : List String) (g2 : GuildId) :
    (handle_play env s g ch a args).1.get_associated_text_channel g2 =
      s.get_associated_text_channel g2 := by
  rcases args with _ | ⟨identifier, rest⟩
  · simp [handle_play]
  · rcases hv : user_voice_channel env g a with _ | c
    · simp [handle_play, hv]
    · rcases hres : play env s g c identifier with ⟨res, s2, tr⟩
      have hs2 : s2 = s := by
        have := play_store_eq env s g c identifier
        rw [hres] at this
        exact this
      rcases res with e | t
      · cases e <;> simp [handle_play, hv, hres, hs2]
      · simp [handle_play, hv, hres, hs2]

theorem handle_add_channel_eq (env : Env) (s : Store) (g : GuildId) (ch : ChannelId)
    (a : UserId) (args : List String) (g2 : GuildId) :
    (handle_add env s g ch a args).1.get_associated_text_channel g2 =
      s.get_associated_text_channel g2 := by
  rcases args with _ | ⟨identifier, rest⟩
  · simp [handle_add]
  · rcases hv : user_voice_channel env g a with _ | c
    · simp [handle_add, hv]
    · rcases hres : enqueue env s g c identifier with ⟨res, s2, tr⟩
      have hs2 : s2.get_associated_text_channel g2 = s.get_associated_text_channel g2 := by
        have := enqueue_channel_eq env s g c identifier g2
        rw [hres] at this
        exact this
      rcases res with e | t
      · cases e <;> simp [handle_add, hv, hres, hs2]
      · simp [handle_add, hv, hres, hs2]

theorem handle_stop_channel_eq (env : Env) (s : Store) (g : GuildId) (g2 : GuildId) :
    (handle_stop env s g).1.get_associated_text_channel g2 =
      s.get_associated_text_channel g2 := by
  rcases hres : stop env s g with ⟨res, s2, tr⟩
  have hs2 : s2 = s := by
    have := stop_store_eq env s g
    rw [hres] at this
    exact this
  simp [handle_stop, hres, hs2]

theorem handle_volume_channel_eq (env : Env) (s : Store) (g : GuildId) (ch : ChannelId)
    (args : List String) (g2 : GuildId) :
    (handle_volume env s g ch args).1.get_associated_text_channel g2 =
      s.get_associated_text_channel g2 := by
  rcases args with _ | ⟨valueStr, rest⟩
  · simp [handle_volume]
  · rcases hv : valueStr.toInt? with _ | v
    · simp [handle_volume, hv]
    · rcases hres : volume env s g v with ⟨res, s2, tr⟩
      have hs2 : s2 = s := by
        have := volume_store_eq env s g v
        rw [hres] at this
        exact this
      rcases res with e | t
      · cases e <;> simp [handle_volume, hv, hres, hs2]
      · simp [handle_volume, hv, hres, hs2]

theorem handle_seek_channel_eq (env : Env) (s : Store) (g : GuildId) (ch : ChannelId)
    (args : List String) (g2 : GuildId) :
    (handle_seek env s g ch args).1.get_associated_text_channel g2 =
      s.get_associated_text_channel g2 := by
  rcases args with _ | ⟨valueStr, rest⟩
  · simp [handle_seek]
  · rcases hv : valueStr.toInt? with _ | v
    · simp [handle_seek, hv]
    · rcases hres : seek env s g v with ⟨res, s2, tr⟩
      have hs2 : s2 = s := by
        have := seek_store_eq env s g v
        rw [hres] at this
        exact this
      rcases res with e | t
      · simp [handle_seek, hv, hres, hs2]
      · simp [handle_seek, hv, hres, hs2]

theorem handle_pause_channel_eq (env : Env) (s : Store) (g : GuildId) (ch : ChannelId)
    (g2 : GuildId) :
    (handle_pause env s g ch).1.get_associated_text_channel g2 =
      s.get_associated_text_channel g2 := by
  rcases hres : pause_toggle env s g with ⟨res, s2, tr⟩
  have hs2 : s2 = s := by
    have := pause_toggle_store_eq env s g
    rw [hres] at this
    exact this
  rcases res with e | t
  · simp [handle_pause, hres, hs2]
  · simp [handle_pause, hres, hs2]

theorem associate_get_self (s : Store) (g : GuildId) (c : ChannelId) :
    (s.associate_text_channel g c).get_associated_text_channel g = some c := by
  rcases hE : s.getEntry g with _ | d <;>
    simp [Store.associate_text_channel, hE, Store.get_associated_text_channel,
      getEntry_setEntry_self]

theorem associate_guild_queue (s : Store) (g : GuildId) (c : ChannelId) (g2 : GuildId) :
    (s.associate_text_channel g c).guild_queue g2 = s.guild_queue g2 := by
  by_cases h : g2 = g
  · subst h
    rcases hE : s.getEntry g2 with _ | d <;>
      simp [Store.associate_text_channel, hE, Store.guild_queue, getEntry_setEntry_self]
  · rcases hE : s.getEntry g with _ | d <;>
      simp [Store.associate_text_channel, hE, Store.guild_queue,
        getEntry_setEntry_other _ _ _ _ h]

/-- C6: a guild `play <query>` command whose author has no known voice
channel produces exactly one outbound operation — the reply "You need to
join a voice channel first" — and in particular no voice join, no
track-load request and no play directive; the store only gains the
text-channel association. -/
theorem C6_play_without_voice_channel_only_replies (env : Env) (store : Store)
    (msg : Msg) (g : GuildId) (command identifier : String) (rest : List String)
    (hg : msg.guild_id = some g)
    (hc : stripLeading env.commandPrefixStr msg.content = some command)
    (hsplit : splitArgs command = "play" :: identifier :: rest)
    (hv : user_voice_channel env g msg.author_id = none) :
    process_event env store msg =
      (store.associate_text_channel g msg.channel_id,
        [Effect.reply msg.channel_id "You need to join a voice channel first"]) ∧
    (∀ c2, Effect.joinVoice g c2 ∉ (process_event env store msg).2) ∧
    (∀ i2, Effect.httpLoadTracks i2 ∉ (process_event env store msg).2) ∧
    (∀ g2 tok, Effect.sendPlay g2 tok ∉ (process_event env store msg).2) := by
  have hmain : process_event env store msg =
      (store.associate_text_channel g msg.channel_id,
        [Effect.reply msg.channel_id "You need to join a voice channel first"]) := by
    simp [process_event, hg, hc, hsplit, handle_play, hv]
  refine ⟨hmain, ?_, ?_, ?_⟩ <;> intros <;> simp [hmain]

/-- Witness for C6: message "!play lofi" in guild 1 under `envNoVoice`
(no cached voice state for any user). -/
theorem C6_play_without_voice_channel_only_replies_witness :
    process_event envNoVoice {}
        { guild_id := some 1, channel_id := 3, author_id := 4, content := "!play lofi" } =
      (Store.associate_text_channel {} 1 3,
        [Effect.reply 3 "You need to join a voice channel first"]) ∧
    Effect.joinVoice 1 7 ∉ (process_event envNoVoice {}
        { guild_id := some 1, channel_id := 3, author_id := 4, content := "!play lofi" }).2 ∧
    Effect.httpLoadTracks "lofi" ∉ (process_event envNoVoice {}
        { guild_id := some 1, channel_id := 3, author_id := 4, content := "!play lofi" }).2 ∧
    Effect.sendPlay 1 "tokA" ∉ (process_event envNoVoice {}
        { guild_id := some 1, channel_id := 3, author_id := 4, content := "!play lofi" }).2 := by
  obtain ⟨h1, h2, h3, h4⟩ := C6_play_without_voice_channel_only_replies envNoVoice {}
    { guild_id := some 1, channel_id := 3, author_id := 4, content := "!play lofi" }
    1 "play lofi" "lofi" [] rfl (by decide) (by decide) rfl
  exact ⟨h1, h2 7, h3 "lofi", h4 1 "tokA"⟩

/-- C10: every guild message that starts with the command prefix ends
with the guild's reply channel overwritten to the message's channel —
whatever the command dispatches to, including command names that are
otherwise silently ignored; for an unrecognized command the whole effect
of the event is exactly that association, and the association changes no
guild's queue. -/
theorem C10_command_message_associates_text_channel (env : Env) (store : Store)
    (msg : Msg) (g : GuildId) (command cmd : String) (args : List String)
    (hg : msg.guild_id = some g)
    (hc : stripLeading env.commandPrefixStr msg.content = some command)
    (hsplit : splitArgs command = cmd :: args) :
    (process_event env store msg).1.get_associated_text_channel g =
      some msg.channel_id ∧
    (cmd ≠ "play" → cmd ≠ "add" → cmd ≠ "enqueue" → cmd ≠ "stop" → cmd ≠ "volume" →
      cmd ≠ "seek" → cmd ≠ "pause" → cmd ≠ "ping" →
      process_event env store msg =
        (store.associate_text_channel g msg.channel_id, []) ∧
      ∀ g2, (store.associate_text_channel g msg.channel_id).guild_queue g2 =
        store.guild_queue g2) := by
  constructor
  · simp only [process_event, hg, hc, hsplit]
    split_ifs <;>
      simp [handle_play_channel_eq, handle_add_channel_eq, handle_stop_channel_eq,
        handle_volume_channel_eq, handle_seek_channel_eq, handle_pause_channel_eq,
        associate_get_self]
  · intro h1 h2 h3 h4 h5 h6 h7 h8
    constructor
    · simp [process_event, hg, hc, hsplit, h1, h2, h3, h4, h5, h6, h7, h8]
    · intro g2
      exact associate_guild_queue store g msg.channel_id g2

/-- Witness for C10: the unrecognized command "!frobnicate" in guild 1
still records channel 3 as the guild's reply channel, produces no other
effect, and leaves guild 1's queue as it was. -/
theorem C10_command_message_associates_text_channel_witness :
    (process_event envA {}
        { guild_id := some 1, channel_id := 3, author_id := 4,
          content := "!frobnicate" }).1.get_associated_text_channel 1 = some 3 ∧
    process_event envA {}
        { guild_id := some 1, channel_id := 3, author_id := 4,
          content := "!frobnicate" } = (Store.associate_text_channel {} 1 3, []) ∧
    (Store.associate_text_channel {} 1 3).guild_queue 1 = Store.guild_queue {} 1 := by
  obtain ⟨h1, h2⟩ := C10_command_message_associates_text_channel envA {}
    { guild_id := some 1, channel_id := 3, author_id := 4, content := "!frobnicate" }
    1 "frobnicate" "frobnicate" [] rfl (by decide) (by decide)
  obtain ⟨h3, h4⟩ := h2 (by decide) (by decide) (by decide) (by decide) (by decide)
    (by decide) (by decide) (by decide)
  exact ⟨h1, h3, h4 1⟩

end MusicBot
